import Mathlib

/-!
Shallow embedding of `src/newspaper_generator.py` (class `DailyNewspaper`).

External effects (HTTP responses, the Todoist query, the Google token
refresh and authorization-code exchange, feed parsing, Jinja rendering)
are passed in as explicit outcome values of type `Except`, standing for
"the call returned normally" versus "the call raised".  The local file
system is an association list from paths to contents.  Every Python
function that the claims touch is translated to a Lean definition of the
same name (snake case kept where Lean allows).
-/

namespace Newspaper

/-- Error values standing for Python exceptions raised by external calls
or by the pipeline itself. -/
inductive Err where
  | weatherFailed
  | tasksFailed
  | templateMissing
  | undefinedField
  | calendarFailed
  deriving DecidableEq, Repr

/- ### Dates and the strftime formats used by the code -/

/-- A calendar date, as used by `datetime.now()` for the date line and
the output path. -/
structure Date where
  year : Nat
  month : Nat
  day : Nat
  deriving DecidableEq, Repr

/-- A full timestamp, as used by `datetime.utcnow()` in
`get_calendar_events`. -/
structure DateTime where
  year : Nat
  month : Nat
  day : Nat
  hour : Nat
  minute : Nat
  second : Nat
  deriving DecidableEq, Repr

/-- Chronological key of a timestamp: lexicographic packing of its six
fields, monotone in calendar order for in-range field values. -/
def DateTime.key (t : DateTime) : Nat :=
  ((((t.year * 13 + t.month) * 32 + t.day) * 24 + t.hour) * 60 + t.minute) * 60 + t.second

/-- Zero padding to two digits, as `%d` / `%m` / `%Y-%m-%d` produce. -/
def pad2 (n : Nat) : String :=
  if n < 10 then "0" ++ toString n else toString n

/-- Zeller congruence; 0 = Saturday, 1 = Sunday, 2 = Monday, ... -/
def zeller (y m d : Nat) : Nat :=
  let m2 := if m ≤ 2 then m + 12 else m
  let y2 := if m ≤ 2 then y - 1 else y
  let k := y2 % 100
  let j := y2 / 100
  (d + (13 * (m2 + 1)) / 5 + k + k / 4 + j / 4 + 5 * j) % 7

/-- English weekday name for a Zeller index, as `%A` produces. -/
def weekdayName (h : Nat) : String :=
  match h with
  | 0 => "Saturday"
  | 1 => "Sunday"
  | 2 => "Monday"
  | 3 => "Tuesday"
  | 4 => "Wednesday"
  | 5 => "Thursday"
  | 6 => "Friday"
  | _ => ""

/-- English month name, as `%B` produces. -/
def monthName (m : Nat) : String :=
  match m with
  | 1 => "January"
  | 2 => "February"
  | 3 => "March"
  | 4 => "April"
  | 5 => "May"
  | 6 => "June"
  | 7 => "July"
  | 8 => "August"
  | 9 => "September"
  | 10 => "October"
  | 11 => "November"
  | 12 => "December"
  | _ => ""

/-- The code's date line: `datetime.now().strftime("%A, %B %d, %Y")`. -/
def formatLong (d : Date) : String :=
  weekdayName (zeller d.year d.month d.day) ++ ", " ++ monthName d.month
    ++ " " ++ pad2 d.day ++ ", " ++ toString d.year

/-- The code's path date: `datetime.now().strftime("%Y-%m-%d")`. -/
def formatISO (d : Date) : String :=
  toString d.year ++ "-" ++ pad2 d.month ++ "-" ++ pad2 d.day

/-- The output path built in `generate_newspaper`:
`f"newspapers/.../{date}.md"`. -/
def outputPath (d : Date) : String :=
  "newspapers/" ++ formatISO d ++ ".md"

/- ### File system model and the Writer -/

/-- The local file system: association list from path to contents. -/
abbrev FS := List (String × String)

/-- `open(path, "w")` followed by `f.write(s)`: truncate and replace the
contents at `path`. -/
def writeFile (fs : FS) (path s : String) : FS :=
  (path, s) :: fs.filter (fun kv => kv.1 ≠ path)

/-- Observe the contents stored at a path. -/
def readFile (fs : FS) (path : String) : Option String :=
  (fs.find? (fun kv => kv.1 == path)).map (fun kv => kv.2)

/- ### Credential Manager: `get_google_credentials` (lines 52-87) -/

/-- The observable state of a Google credential object, as the code
tests it: `creds.valid`, `creds.expired`, `creds.refresh_token`. -/
structure Cred where
  valid : Bool
  expired : Bool
  hasRefreshToken : Bool
  deriving DecidableEq, Repr

/-- State of `secrets/token.pickle`: missing, present but not
unpicklable, or holding a serialized credential. -/
inductive TokenFile where
  | absent
  | corrupt
  | stored (c : Cred)
  deriving DecidableEq, Repr

/-- Exceptions that can escape the credential step. -/
inductive CredErr where
  | corruptFile
  | refreshFailed
  | exchangeFailed
  | inputAborted
  deriving DecidableEq, Repr

/-- Side effects performed by `get_google_credentials` on a successful
return: whether it called `creds.refresh`, ran the interactive prompt,
and wrote `secrets/token.pickle`. -/
structure CredEffects where
  refreshed : Bool
  prompted : Bool
  saved : Bool
  deriving DecidableEq, Repr

/-- Embedding of `DailyNewspaper.get_google_credentials`.
`refreshOutcome` is the result of `creds.refresh(Request())`;
`flowOutcome` is the result of the interactive block (authorization URL,
`input(...)`, `flow.fetch_token`), covering an aborted input or a failed
code exchange as errors.  The function has no try/except of its own, so
every error propagates to the caller. -/
def get_google_credentials (file : TokenFile)
    (refreshOutcome : Cred → Except CredErr Cred)
    (flowOutcome : Except CredErr Cred) :
    Except CredErr (Cred × CredEffects) :=
  match file with
  | .corrupt => .error .corruptFile
  | .absent =>
      match flowOutcome with
      | .error e => .error e
      | .ok c => .ok (c, ⟨false, true, true⟩)
  | .stored c =>
      if c.valid then .ok (c, ⟨false, false, false⟩)
      else if c.expired && c.hasRefreshToken then
        match refreshOutcome c with
        | .error e => .error e
        | .ok c2 => .ok (c2, ⟨true, false, true⟩)
      else
        match flowOutcome with
        | .error e => .error e
        | .ok c2 => .ok (c2, ⟨false, true, true⟩)

/- ### Calendar Adapter: `get_calendar_events` (lines 89-109) -/

/-- A calendar event, reduced to the field the adapter's query
constrains: its start time. -/
structure Event where
  start : DateTime
  title : String
  deriving DecidableEq, Repr

/-- Start-time order on events. -/
def eventLE (a b : Event) : Prop := a.start.key ≤ b.start.key

instance : DecidableRel eventLE := fun a b => Nat.decLe a.start.key b.start.key

instance : IsTotal Event eventLE := ⟨fun a b => Nat.le_total a.start.key b.start.key⟩

instance : IsTrans Event eventLE := ⟨fun _ _ _ h1 h2 => Nat.le_trans h1 h2⟩

/-- Lower bound passed as `timeMin`: `datetime.utcnow().isoformat()`. -/
def timeMin (now : DateTime) : DateTime := now

/-- Upper bound passed as `timeMax`:
`datetime.utcnow().replace(hour=23, minute=59).isoformat()` — only the
hour and minute fields change; seconds are kept. -/
def todayEnd (now : DateTime) : DateTime :=
  { now with hour := 23, minute := 59 }

/-- Modelled from the spec: the Google Calendar `events().list` endpoint
itself is external code.  Per the spec's external-interface section it
answers a time-bounded query with ascending start-time order, so the
model filters the provider's events to the requested window and sorts
them by start time. -/
def serviceListEvents (tmin tmax : DateTime) (events : List Event) : List Event :=
  List.insertionSort eventLE
    (events.filter (fun e => tmin.key ≤ e.start.key && e.start.key ≤ tmax.key))

/-- The body of `get_calendar_events` inside its `try`: the credential
step, `build(...)`, and the events query.  `queryOk` is whether the
`build`/`execute` round trip succeeds. -/
def calendarBody (file : TokenFile)
    (refreshOutcome : Cred → Except CredErr Cred)
    (flowOutcome : Except CredErr Cred)
    (now : DateTime) (queryOk : Bool) (providerEvents : List Event) :
    Except (CredErr ⊕ Unit) (List Event) :=
  match get_google_credentials file refreshOutcome flowOutcome with
  | .error e => .error (.inl e)
  | .ok _ =>
      if queryOk then
        .ok (serviceListEvents (timeMin now) (todayEnd now) providerEvents)
      else .error (.inr ())

/-- Embedding of `DailyNewspaper.get_calendar_events`: the whole body is
wrapped in `try ... except Exception: return []`. -/
def get_calendar_events (file : TokenFile)
    (refreshOutcome : Cred → Except CredErr Cred)
    (flowOutcome : Except CredErr Cred)
    (now : DateTime) (queryOk : Bool) (providerEvents : List Event) :
    List Event :=
  match calendarBody file refreshOutcome flowOutcome now queryOk providerEvents with
  | .ok events => events
  | .error _ => []

/- ### Task Adapter: `get_tasks` (lines 42-50) -/

/-- Embedding of `DailyNewspaper.get_tasks`: the query runs inside
`try ... except Exception: return []`, so the adapter always returns
normally. -/
def get_tasks (queryOutcome : Except Err (List String)) : Except Err (List String) :=
  .ok (match queryOutcome with
       | .ok tasks => tasks
       | .error _ => [])

/- ### Weather Adapter: `get_weather` (lines 30-40) -/

/-- Embedding of `DailyNewspaper.get_weather`: one HTTP GET with no
try/except, returning `response.json()`; a transport error simply
propagates. -/
def get_weather (response : Except Err String) : Except Err String :=
  response

/- ### News Adapter: `get_news` (lines 113-122) -/

/-- What one feed contributes inside the loop: on a successful parse the
first five entries (`feed.entries[:5]`), on a raised parse error nothing
(the `except` only logs). -/
def feedContribution (result : Except Unit (List String)) : List String :=
  match result with
  | .ok entries => entries.take 5
  | .error _ => []

/-- Embedding of `DailyNewspaper.get_news`: iterate the configured feed
list in order, extending `news_items` with each feed's contribution. -/
def get_news (feeds : List (Except Unit (List String))) : List String :=
  feeds.foldl (fun acc f => acc ++ feedContribution f) []

/- ### Aggregator: `asyncio.gather` and `generate_newspaper` (129-162) -/

/-- Deterministic model of `asyncio.gather(w, t, e, n)` with the default
`return_exceptions=False`: if every child returns, the awaiting task
receives the tuple of results; if any child raises, the exception is
propagated to the awaiting task instead of the tuple (argument order
stands in for the temporal order in which exceptions surface). -/
def gather4 {α β γ δ ε : Type} :
    Except ε α → Except ε β → Except ε γ → Except ε δ →
    Except ε (α × β × γ × δ)
  | .error e, _, _, _ => .error e
  | .ok _, .error e, _, _ => .error e
  | .ok _, .ok _, .error e, _ => .error e
  | .ok _, .ok _, .ok _, .error e => .error e
  | .ok a, .ok b, .ok c, .ok d => .ok (a, b, c, d)

/-- The `data` dictionary compiled in `generate_newspaper`
(lines 141-147): all five keys are always set. -/
structure MergedRecord where
  date : String
  weather : String
  tasks : List String
  events : List Event
  news : List String
  deriving DecidableEq, Repr

/-- The record built from the gathered results and the current local
date. -/
def mergedData (today : Date) (weather : String) (tasks : List String)
    (events : List Event) (news : List String) : MergedRecord :=
  { date := formatLong today
    weather := weather
    tasks := tasks
    events := events
    news := news }

/-- Embedding of `DailyNewspaper.generate_newspaper`.  External
outcomes: `weatherResponse` for the weather HTTP call, `tasksQuery` for
the Todoist query, the calendar inputs as in `get_calendar_events`,
`feeds` for the parsed feeds, and `render` for
`generate_markdown` (the Jinja template lookup and render, which can
raise).  Returns the file system after the run and either the output
path or the re-raised exception: the outer `try` only logs before
`raise`, so errors escape unchanged; the file is written only after a
successful render. -/
def generate_newspaper (fs : FS) (today : Date)
    (weatherResponse : Except Err String)
    (tasksQuery : Except Err (List String))
    (file : TokenFile)
    (refreshOutcome : Cred → Except CredErr Cred)
    (flowOutcome : Except CredErr Cred)
    (nowUtc : DateTime) (queryOk : Bool) (providerEvents : List Event)
    (feeds : List (Except Unit (List String)))
    (render : MergedRecord → Except Err String) :
    FS × Except Err String :=
  match gather4 (get_weather weatherResponse) (get_tasks tasksQuery)
      (.ok (get_calendar_events file refreshOutcome flowOutcome nowUtc
        queryOk providerEvents))
      (.ok (get_news feeds)) with
  | .error e => (fs, .error e)
  | .ok (weather, tasks, events, news) =>
      let data := mergedData today weather tasks events news
      match render data with
      | .error e => (fs, .error e)
      | .ok markdown =>
          let path := outputPath today
          (writeFile fs path markdown, .ok path)

/- ### Renderer (template not under src) and spec-side definitions -/

/-- Modelled from the spec: the template `templates/newspaper.md.j2` is
not under src, only its name appears in `generate_markdown`.  Per the
spec the Renderer binds the MergedRecord fields into the template and
its output contains the rendered date line. -/
def renderTemplate (r : MergedRecord) : String :=
  "# Daily Newspaper - " ++ r.date ++ "\n\n## Weather\n" ++ r.weather
    ++ "\n\n## Tasks\n" ++ String.intercalate "\n" r.tasks
    ++ "\n\n## Events\n" ++ String.intercalate "\n" (r.events.map (fun e => e.title))
    ++ "\n\n## News\n" ++ String.intercalate "\n" r.news

/-- Written from the spec's words, for comparison with the code's
`timeMin`: the claimed lower bound of the calendar window, midnight of
the current day. -/
def specClaimedDayStart (now : DateTime) : DateTime :=
  { now with hour := 0, minute := 0, second := 0 }

/-! ## Helper lemmas -/

/-- The news loop is the flattened list of per-feed contributions. -/
lemma foldl_append_contribution (l : List (Except Unit (List String)))
    (acc : List String) :
    l.foldl (fun a f => a ++ feedContribution f) acc
      = acc ++ (l.map feedContribution).flatten := by
  induction l generalizing acc with
  | nil => simp
  | cons x xs ih => simp [List.foldl, ih, List.append_assoc]

/-- Reading back the path just written yields the written contents. -/
lemma readFile_writeFile (fs : FS) (p s : String) :
    readFile (writeFile fs p s) p = some s := by
  simp [readFile, writeFile, List.find?]

/-! ## Claims -/

/-- C5: the News Adapter returns the concatenation, in feed-list order,
of at most the first 5 entries of each feed; a feed whose parse fails
contributes nothing without aborting the others, so with one
unparseable URL and two valid feeds the output length is the sum over
the valid feeds of min(5, entries). -/
theorem news_concat_take5_skip_broken
    (feeds : List (Except Unit (List String))) :
    get_news feeds = (feeds.map feedContribution).flatten
    ∧ ∀ a b : List String,
        (get_news [Except.error (), Except.ok a, Except.ok b]).length
          = min 5 a.length + min 5 b.length := by
  constructor
  · simpa using foldl_append_contribution feeds []
  · intro a b
    simp [get_news, List.foldl, feedContribution, List.length_take]

/-- C7: the Writer maps the date 2024-03-05 to the path
`newspapers/2024-03-05.md`, the written file holds exactly the rendered
text, and a second write (or a second full pipeline run on the same
day) overwrites rather than appends, leaving the last run's text. -/
theorem writer_path_and_overwrite (fs : FS) (s1 s2 m1 m2 : String) :
    outputPath ⟨2024, 3, 5⟩ = "newspapers/2024-03-05.md"
    ∧ readFile (writeFile fs (outputPath ⟨2024, 3, 5⟩) "X")
        (outputPath ⟨2024, 3, 5⟩) = some "X"
    ∧ readFile (writeFile (writeFile fs "newspapers/2024-03-05.md" s1)
        "newspapers/2024-03-05.md" s2) "newspapers/2024-03-05.md" = some s2
    ∧ readFile
        ((fun fs0 m => (generate_newspaper fs0 ⟨2024, 3, 5⟩ (.ok "w") (.ok [])
            .absent (fun c => .ok c) (.ok ⟨true, false, false⟩)
            ⟨2024, 3, 5, 12, 0, 0⟩ true [] [] (fun _ => .ok m)).1)
          ((fun fs0 m => (generate_newspaper fs0 ⟨2024, 3, 5⟩ (.ok "w") (.ok [])
            .absent (fun c => .ok c) (.ok ⟨true, false, false⟩)
            ⟨2024, 3, 5, 12, 0, 0⟩ true [] [] (fun _ => .ok m)).1) fs m1) m2)
        "newspapers/2024-03-05.md" = some m2 := by
  refine ⟨rfl, readFile_writeFile fs _ "X", readFile_writeFile _ _ s2, ?_⟩
  exact readFile_writeFile _ "newspapers/2024-03-05.md" m2

/-- C6: with a stored valid credential the Credential Manager returns
it unchanged with no refresh, no prompt and no re-save; with a stored
expired credential carrying a refresh token it silently refreshes via
the token endpoint and persists the refreshed credential, without any
prompt. -/
theorem cred_valid_noop_expired_refresh (c c2 : Cred)
    (r : Cred → Except CredErr Cred) (fl : Except CredErr Cred) :
    (c.valid = true →
      get_google_credentials (.stored c) r fl
        = .ok (c, ⟨false, false, false⟩))
    ∧ (c.valid = false → c.expired = true → c.hasRefreshToken = true →
        r c = .ok c2 →
        get_google_credentials (.stored c) r fl
          = .ok (c2, ⟨true, false, true⟩)) := by
  constructor
  · intro h
    simp [get_google_credentials, h]
  · intro h1 h2 h3 h4
    simp [get_google_credentials, h1, h2, h3, h4]

/-- Witness for C6 at concrete credentials. -/
theorem cred_valid_noop_expired_refresh_witness :
    get_google_credentials (.stored ⟨true, false, false⟩)
        (fun c => .ok c) (.error .inputAborted)
      = .ok (⟨true, false, false⟩, ⟨false, false, false⟩)
    ∧ get_google_credentials (.stored ⟨false, true, true⟩)
        (fun _ => .ok ⟨true, false, true⟩) (.error .inputAborted)
      = .ok (⟨true, false, true⟩, ⟨true, false, true⟩) :=
  ⟨(cred_valid_noop_expired_refresh ⟨true, false, false⟩ ⟨true, false, false⟩
      (fun c => .ok c) (.error .inputAborted)).1 rfl,
   (cred_valid_noop_expired_refresh ⟨false, true, true⟩ ⟨true, false, true⟩
      (fun _ => .ok ⟨true, false, true⟩) (.error .inputAborted)).2 rfl rfl rfl rfl⟩

/-- C9: the Calendar Adapter is total at its boundary: whenever its
body raises (credential-step failures included) the adapter returns the
empty list, and otherwise it returns the body's event list, so no
exception reaches the Aggregator. -/
theorem calendar_never_propagates (file : TokenFile)
    (r : Cred → Except CredErr Cred) (fl : Except CredErr Cred)
    (now : DateTime) (q : Bool) (pe : List Event) :
    ((calendarBody file r fl now q pe).isOk = false →
      get_calendar_events file r fl now q pe = [])
    ∧ (∀ es, calendarBody file r fl now q pe = .ok es →
        get_calendar_events file r fl now q pe = es) := by
  constructor
  · intro h
    cases hb : calendarBody file r fl now q pe with
    | ok es => rw [hb] at h; simp [Except.isOk, Except.toBool] at h
    | error e => simp [get_calendar_events, hb]
  · intro es h
    simp [get_calendar_events, h]

/-- Witness for C9: a corrupt token file makes the body raise, and the
adapter returns the empty list. -/
theorem calendar_never_propagates_witness :
    (calendarBody .corrupt (fun c => .ok c) (.ok ⟨true, false, false⟩)
        ⟨2024, 1, 1, 12, 0, 0⟩ true []).isOk = false
    ∧ get_calendar_events .corrupt (fun c => .ok c) (.ok ⟨true, false, false⟩)
        ⟨2024, 1, 1, 12, 0, 0⟩ true [] = [] :=
  ⟨rfl, (calendar_never_propagates .corrupt (fun c => .ok c)
      (.ok ⟨true, false, false⟩) ⟨2024, 1, 1, 12, 0, 0⟩ true []).1 rfl⟩

/-- C4 counterexample: with a corrupt token file the Credential Manager
raises the unpickling error even though the interactive flow would have
succeeded; it does not enter the authorization flow. -/
theorem cred_corrupt_counterexample :
    get_google_credentials .corrupt (fun c => .ok c)
        (.ok ⟨true, false, false⟩)
      = .error .corruptFile := rfl

/-- C4 amended: an absent credential file enters the interactive flow
and is never fatal, but a corrupt file instead raises out of the
Credential Manager; the Calendar Adapter catches that error and returns
an empty event list, so corruption is not fatal for the run either, yet
it does not trigger the interactive flow. -/
theorem cred_absent_flow_corrupt_raises
    (r : Cred → Except CredErr Cred) (fl : Except CredErr Cred) (c : Cred)
    (now : DateTime) (q : Bool) (pe : List Event) :
    get_google_credentials .absent r (.ok c) = .ok (c, ⟨false, true, true⟩)
    ∧ get_google_credentials .corrupt r fl = .error .corruptFile
    ∧ get_calendar_events .corrupt r fl now q pe = [] :=
  ⟨rfl, rfl, rfl⟩

/-- C2 counterexample: with the weather child raising and the other
three children settled successfully, the fan-in yields the exception,
not the four settled outcomes — `asyncio.gather` without
`return_exceptions=True` fails fast. -/
theorem gather_fail_fast_counterexample :
    gather4 (Except.error Err.weatherFailed : Except Err String)
        (Except.ok ([] : List String))
        (Except.ok ([] : List Event))
        (Except.ok ([] : List String))
      = Except.error Err.weatherFailed
    ∧ (gather4 (Except.error Err.weatherFailed : Except Err String)
        (Except.ok ([] : List String))
        (Except.ok ([] : List Event))
        (Except.ok ([] : List String))).isOk = false :=
  ⟨rfl, rfl⟩

/-- C2 amended: the fan-in produces all four results only when every
adapter succeeds; if an adapter raises, that exception is propagated to
the awaiting caller instead of the settled results of the siblings. -/
theorem gather_all_ok_or_first_error {α β γ δ ε : Type}
    (a : Except ε α) (b : Except ε β) (c : Except ε γ) (d : Except ε δ) :
    (∀ x y z w, a = .ok x → b = .ok y → c = .ok z → d = .ok w →
      gather4 a b c d = .ok (x, y, z, w))
    ∧ (∀ e, a = .error e → gather4 a b c d = .error e) := by
  constructor
  · intro x y z w ha hb hc hd
    subst ha; subst hb; subst hc; subst hd
    rfl
  · intro e ha
    subst ha
    rfl

/-- Witness for C2 amended at concrete outcomes. -/
theorem gather_all_ok_or_first_error_witness :
    gather4 (Except.ok (ε := Nat) 1) (Except.ok 2) (Except.ok 3) (Except.ok 4)
      = Except.ok (1, 2, 3, 4)
    ∧ gather4 (Except.error (α := Nat) 0) (Except.ok (2 : Nat))
        (Except.ok (3 : Nat)) (Except.ok (4 : Nat))
      = Except.error 0 :=
  ⟨(gather_all_ok_or_first_error (Except.ok 1) (Except.ok 2) (Except.ok 3)
      (Except.ok 4)).1 1 2 3 4 rfl rfl rfl rfl,
   (gather_all_ok_or_first_error (Except.error 0) (Except.ok 2) (Except.ok 3)
      (Except.ok 4)).2 0 rfl⟩

/-- C1: evaluation at the failing input.  A weather transport error
propagates through the gather and `generate_newspaper` re-raises it: no
MergedRecord is built and no file is written, contradicting the claimed
downgrade of a Weather Adapter failure; whereas failures of the tasks,
calendar and news slots are each degraded to empty values and the run
still writes the rendered document. -/
theorem weather_failure_aborts_run :
    generate_newspaper [] ⟨2024, 1, 1⟩ (.error .weatherFailed) (.ok ["t"])
        .absent (fun c => .ok c) (.ok ⟨true, false, false⟩)
        ⟨2024, 1, 1, 12, 0, 0⟩ true [] [.ok ["n"]]
        (fun r => .ok (renderTemplate r))
      = ([], .error .weatherFailed)
    ∧ generate_newspaper [] ⟨2024, 1, 1⟩ (.ok "sunny") (.error .tasksFailed)
        .corrupt (fun c => .ok c) (.error .inputAborted)
        ⟨2024, 1, 1, 12, 0, 0⟩ false [] [.error ()]
        (fun r => .ok (renderTemplate r))
      = (writeFile [] (outputPath ⟨2024, 1, 1⟩)
          (renderTemplate (mergedData ⟨2024, 1, 1⟩ "sunny" [] [] [])),
         .ok (outputPath ⟨2024, 1, 1⟩)) :=
  ⟨rfl, rfl⟩

/-- C10: when the render step raises (missing template or undefined
field), `generate_newspaper` re-raises that same exception and the file
system is left untouched — the output file is opened only after a
successful render. -/
theorem render_failure_writes_nothing (fs : FS) (today : Date)
    (w : String) (ts : List String) (file : TokenFile)
    (r : Cred → Except CredErr Cred) (fl : Except CredErr Cred)
    (now : DateTime) (q : Bool) (pe : List Event)
    (feeds : List (Except Unit (List String)))
    (render : MergedRecord → Except Err String) (e : Err)
    (h : render (mergedData today w ts
          (get_calendar_events file r fl now q pe) (get_news feeds))
        = .error e) :
    generate_newspaper fs today (.ok w) (.ok ts) file r fl now q pe feeds
        render
      = (fs, .error e) := by
  simp [generate_newspaper, get_weather, get_tasks, gather4, h]

/-- C3 counterexample: at noon, an event of the same calendar day that
started at 09:00 lies inside the claimed window (midnight to 23:59) but
the adapter's query excludes it, because the code's lower bound is
`datetime.utcnow()` — the invocation instant — not midnight. -/
theorem calendar_window_counterexample :
    (specClaimedDayStart ⟨2024, 1, 1, 12, 0, 0⟩).key
        ≤ (DateTime.mk 2024 1 1 9 0 0).key
    ∧ (DateTime.mk 2024 1 1 9 0 0).key ≤ (todayEnd ⟨2024, 1, 1, 12, 0, 0⟩).key
    ∧ get_calendar_events (.stored ⟨true, false, false⟩) (fun c => .ok c)
        (.ok ⟨true, false, false⟩) ⟨2024, 1, 1, 12, 0, 0⟩ true
        [⟨⟨2024, 1, 1, 9, 0, 0⟩, "standup"⟩] = [] :=
  ⟨by decide, by decide, rfl⟩

/-- C3 amended: on a successful run the Calendar Adapter returns the
events between the invocation instant (`datetime.utcnow()`) and 23:59
of the same UTC day, ordered ascending by start time; on any failure
the returned list is empty. -/
theorem calendar_window_and_order (file : TokenFile)
    (r : Cred → Except CredErr Cred) (fl : Except CredErr Cred)
    (now : DateTime) (q : Bool) (pe : List Event) (es : List Event)
    (h : calendarBody file r fl now q pe = .ok es) :
    get_calendar_events file r fl now q pe = es
    ∧ es.Sorted eventLE
    ∧ (∀ ev ∈ es,
        (timeMin now).key ≤ ev.start.key ∧ ev.start.key ≤ (todayEnd now).key)
    ∧ (∀ f2 r2 fl2 n2 q2 p2, (calendarBody f2 r2 fl2 n2 q2 p2).isOk = false →
        get_calendar_events f2 r2 fl2 n2 q2 p2 = []) := by
  have hes : es = serviceListEvents (timeMin now) (todayEnd now) pe := by
    unfold calendarBody at h
    cases hg : get_google_credentials file r fl with
    | error e => rw [hg] at h; exact absurd h (by simp)
    | ok cc =>
        rw [hg] at h
        cases q with
        | false => exact absurd h (by simp)
        | true => simpa using h.symm
  refine ⟨by simp [get_calendar_events, h], ?_, ?_, ?_⟩
  · rw [hes]
    exact List.sorted_insertionSort eventLE _
  · intro ev hmem
    rw [hes] at hmem
    unfold serviceListEvents at hmem
    rw [List.mem_insertionSort] at hmem
    have hf := List.mem_filter.mp hmem
    simpa using hf.2
  · intro f2 r2 fl2 n2 q2 p2 h2
    cases hb : calendarBody f2 r2 fl2 n2 q2 p2 with
    | ok es2 => rw [hb] at h2; simp [Except.isOk, Except.toBool] at h2
    | error e => simp [get_calendar_events, hb]

/-- Witness for C3 amended: an afternoon event survives the noon query
and is returned. -/
theorem calendar_window_and_order_witness :
    get_calendar_events (.stored ⟨true, false, false⟩) (fun c => .ok c)
        (.ok ⟨true, false, false⟩) ⟨2024, 1, 1, 12, 0, 0⟩ true
        [⟨⟨2024, 1, 1, 13, 0, 0⟩, "meeting"⟩]
      = [⟨⟨2024, 1, 1, 13, 0, 0⟩, "meeting"⟩] :=
  (calendar_window_and_order (.stored ⟨true, false, false⟩) (fun c => .ok c)
      (.ok ⟨true, false, false⟩) ⟨2024, 1, 1, 12, 0, 0⟩ true
      [⟨⟨2024, 1, 1, 13, 0, 0⟩, "meeting"⟩]
      [⟨⟨2024, 1, 1, 13, 0, 0⟩, "meeting"⟩] rfl).1

/-- C8: the MergedRecord's date field is the current day rendered as
weekday, month name, zero-padded day, four-digit year, so for
2024-01-01 it is the literal string `Monday, January 01, 2024`, and the
rendered document contains that string. -/
theorem date_line_format (w : String) (t : List String) (ev : List Event)
    (n : List String) :
    formatLong ⟨2024, 1, 1⟩ = "Monday, January 01, 2024"
    ∧ (mergedData ⟨2024, 1, 1⟩ w t ev n).date = formatLong ⟨2024, 1, 1⟩
    ∧ ∃ a b : String,
        renderTemplate
            (mergedData ⟨2024, 1, 1⟩ "sunny" ["walk the dog"] [] ["headline"])
          = a ++ "Monday, January 01, 2024" ++ b :=
  ⟨rfl, rfl, "# Daily Newspaper - ",
   "\n\n## Weather\nsunny\n\n## Tasks\nwalk the dog\n\n## Events\n\n\n## News\nheadline",
   by decide⟩

/-- Witness for C10: a missing template error is re-raised and the file
system stays empty. -/
theorem render_failure_writes_nothing_witness :
    generate_newspaper [] ⟨2024, 1, 1⟩ (.ok "sunny") (.ok ["t"])
        .absent (fun c => .ok c) (.ok ⟨true, false, false⟩)
        ⟨2024, 1, 1, 12, 0, 0⟩ true [] [.ok ["n"]]
        (fun _ => .error .templateMissing)
      = ([], .error .templateMissing) :=
  render_failure_writes_nothing [] ⟨2024, 1, 1⟩ "sunny" ["t"] .absent
    (fun c => .ok c) (.ok ⟨true, false, false⟩) ⟨2024, 1, 1, 12, 0, 0⟩ true []
    [.ok ["n"]] (fun _ => .error .templateMissing) .templateMissing rfl

end Newspaper
